import Mathlib

/-
Verification of the position-list subsystem of the hyrise fork.
The C++ sources embedded here (shallowly) are:
  src/lib/storage/abstract_pos_list.hpp        -- AbstractPosList + materialized PosList (PosListM below)
  src/lib/storage/pos_lists/single_chunk_pos_list.hpp -- SingleChunkPosList
  src/lib/storage/pos_list.hpp                 -- three generations of the sentinel-bearing PosList
  src/unnamed/part_002                         -- MatchesAllPosList + AbstractPosList::PosListIterator
Machine integers (ChunkID = uint32_t, ChunkOffset = uint32_t, size_t) are
modelled as Nat; none of the verified claims exercises wrap-around.
Fallible operations (hyrise Assert / DebugAssert failures, unchecked vector
access past the end) are modelled with Option, none denoting the failure or
the undefined access.  Where behaviour differs between debug builds
(DebugAssert active) and release builds, the functions take an explicit
(debug : Bool) parameter.
-/

namespace Hyrise

/-- ChunkID is uint32_t in types.hpp; modelled as Nat. -/
abbrev ChunkID := Nat

/-- ChunkOffset is uint32_t in types.hpp; modelled as Nat. -/
abbrev ChunkOffset := Nat

/-- INVALID_CHUNK_ID is the maximal uint32_t value. -/
def INVALID_CHUNK_ID : ChunkID := 4294967295

/-- RowID from types.hpp: a chunk identifier plus an in-chunk offset,
compared by structural equality. -/
structure RowID where
  chunk_id : ChunkID
  chunk_offset : ChunkOffset
deriving DecidableEq, Repr

/-- The size of RowID in bytes: two uint32_t fields. -/
def sizeof_RowID : Nat := 8

/-- The size of a pointer on the 64-bit target. -/
def sizeof_pointer : Nat := 8

/-- A Chunk object as seen by this subsystem: an object identity (the
address held by the shared_ptr, modelled as a nonce) and the row count
returned by Chunk::size().  Distinct heap objects always carry distinct
ptr values, so shared_ptr comparison is comparison of ptr. -/
structure Chunk where
  ptr : Nat
  size : Nat
deriving DecidableEq, Repr

/-- MemoryUsageCalculationMode from types.hpp. -/
inductive MemoryUsageCalculationMode where
  | Sampled
  | Full
deriving DecidableEq, Repr

/-! ## MatchesAllPosList (src/unnamed/part_002, lines 8-58) -/

/-- MatchesAllPosList holds a shared read-only chunk and a chunk id. -/
structure MatchesAllPosList where
  _common_chunk : Chunk
  _common_chunk_id : ChunkID
deriving DecidableEq, Repr

namespace MatchesAllPosList

/-- references_single_chunk returns true unconditionally. -/
def references_single_chunk (_p : MatchesAllPosList) : Bool := true

/-- size delegates to the row count of the referenced chunk. -/
def size (p : MatchesAllPosList) : Nat := p._common_chunk.size

/-- empty is size() == 0. -/
def isEmpty (p : MatchesAllPosList) : Bool := decide (p.size = 0)

/-- common_chunk_id returns the stored id; a DebugAssert (active only when
debug is true) rejects INVALID_CHUNK_ID. -/
def common_chunk_id (debug : Bool) (p : MatchesAllPosList) : Option ChunkID :=
  if debug && decide (p._common_chunk_id = INVALID_CHUNK_ID) then none
  else some p._common_chunk_id

/-- operator[] synthesizes the row id with no bounds check whatsoever;
the only check is a DebugAssert that the stored chunk id is valid. -/
def get (debug : Bool) (p : MatchesAllPosList) (n : Nat) : Option RowID :=
  if debug && decide (p._common_chunk_id = INVALID_CHUNK_ID) then none
  else some ⟨p._common_chunk_id, n⟩

/-- memory_usage returns the fixed struct size, for every mode. -/
def sizeof_struct : Nat := 32

/-- memory_usage from part_002 line 33: sizeof of the object itself. -/
def memory_usage (_mode : MemoryUsageCalculationMode) (_p : MatchesAllPosList) : Nat :=
  sizeof_struct

/-- The logical sequence denoted by a matches-all list: element i is
synthesized as the row id with the stored chunk id and offset i. -/
def logicalSeq (p : MatchesAllPosList) : List RowID :=
  (List.range p.size).map (fun i => ⟨p._common_chunk_id, i⟩)

/-- The overload operator==(const MatchesAllPosList*): shared_ptr
comparison of the two chunk pointers. -/
def opEqMatchesAll (a b : MatchesAllPosList) : Bool :=
  decide (a._common_chunk.ptr = b._common_chunk.ptr)

/-- The virtual overload operator==(const AbstractPosList*) from part_002
lines 37-40 is a stub that ignores its argument and returns false (the
body is a lone TODO comment above a false return).  The other list is
modelled by its logical sequence, which the stub never inspects. -/
def opEqAbstract (_p : MatchesAllPosList) (_other : List RowID) : Bool := false

end MatchesAllPosList

/-! ## SingleChunkPosList (src/lib/storage/pos_lists/single_chunk_pos_list.hpp) -/

/-- SingleChunkPosList holds a chunk id and a pair of index iterators
delimiting a sequence of chunk offsets; the delimited offsets are modelled
as the list between range_begin and range_end. -/
structure SingleChunkPosList where
  range : List ChunkOffset
  _chunk_id : ChunkID
deriving DecidableEq, Repr

namespace SingleChunkPosList

/-- empty compares range_begin against range_end. -/
def isEmpty (p : SingleChunkPosList) : Bool := decide (p.range = [])

/-- size is the iterator distance. -/
def size (p : SingleChunkPosList) : Nat := p.range.length

/-- references_single_chunk returns true unconditionally. -/
def references_single_chunk (_p : SingleChunkPosList) : Bool := true

/-- common_chunk_id (header lines 30-32) returns the stored chunk id with
no precondition check of any kind; Option models failure paths, and this
function has none, so it always succeeds. -/
def common_chunk_id (p : SingleChunkPosList) : Option ChunkID :=
  some p._chunk_id

/-- operator[] advances range_begin by n and dereferences with no bounds
check; dereferencing past range_end is undefined behaviour, modelled as
none. -/
def get (p : SingleChunkPosList) (n : Nat) : Option RowID :=
  (p.range.get? n).map (fun off => ⟨p._chunk_id, off⟩)

/-- memory_usage (header lines 22-24) returns sizeof(this), which is the
size of the this pointer, not of the pointed-to struct. -/
def memory_usage (_mode : MemoryUsageCalculationMode) (_p : SingleChunkPosList) : Nat :=
  sizeof_pointer

/-- The logical sequence denoted by a range-backed list. -/
def logicalSeq (p : SingleChunkPosList) : List RowID :=
  p.range.map (fun off => ⟨p._chunk_id, off⟩)

end SingleChunkPosList

/-! ## Materialized PosList (src/lib/storage/abstract_pos_list.hpp, lines 71-203) -/

/-- The materialized PosList of abstract_pos_list.hpp: a vector of RowID
plus the advisory single-chunk flag. -/
structure PosListM where
  vec : List RowID
  _references_single_chunk : Bool
deriving DecidableEq, Repr

namespace PosListM

/-- The exhaustive scan inside the DebugAssert of references_single_chunk:
an empty list passes, otherwise every chunk id must equal that of the
first element. -/
def scanSingleChunk (v : List RowID) : Bool :=
  match v with
  | [] => true
  | r :: rest => rest.all (fun s => decide (s.chunk_id = r.chunk_id))

/-- references_single_chunk returns the advisory flag; when the flag is
set, a DebugAssert (active only when debug is true) verifies by an
exhaustive scan that all entries share the first chunk id, failing (none)
otherwise. -/
def references_single_chunk (debug : Bool) (p : PosListM) : Option Bool :=
  if p._references_single_chunk && debug && !(scanSingleChunk p.vec) then none
  else some p._references_single_chunk

/-- size is the container length. -/
def size (p : PosListM) : Nat := p.vec.length

/-- common_chunk_id (lines 129-134): a DebugAssert evaluates
references_single_chunk() and requires it true (in debug builds only),
then a release-mode Assert rejects the empty list, then the chunk id of
element 0 is returned. -/
def common_chunk_id (debug : Bool) (p : PosListM) : Option ChunkID :=
  if debug then
    match references_single_chunk true p with
    | none => none
    | some b =>
      if !b then none
      else if p.vec.isEmpty then none
      else some ((p.vec.headD ⟨0, 0⟩).chunk_id)
  else
    if p.vec.isEmpty then none
    else some ((p.vec.headD ⟨0, 0⟩).chunk_id)

/-- operator[] (lines 140-142) forwards to the unchecked vector access;
access past the end is undefined behaviour, modelled as none.  There is
no out-of-range error path (Vector::at is deliberately not exposed). -/
def get (p : PosListM) (n : Nat) : Option RowID := p.vec.get? n

/-- memory_usage (lines 181-184) ignores the mode and charges
size() * sizeof(RowID). -/
def memory_usage (_mode : MemoryUsageCalculationMode) (p : PosListM) : Nat :=
  p.size * sizeof_RowID

/-- operator==(const PosList&) compares the underlying vectors. -/
def opEqPosList (a b : PosListM) : Bool := decide (a.vec = b.vec)

/-- The logical sequence of a materialized list is its vector. -/
def logicalSeq (p : PosListM) : List RowID := p.vec

end PosListM

/-! ## First-generation PosList (src/lib/storage/pos_list.hpp, lines 19-257)

The first generation keeps the matches-all sentinel and exposes iteration
through the wrapper class PosList::iterator, which boxes either a vector
iterator or a MatchesAllIterator.  begin() (lines 191-196) hands out the
offset-0 MatchesAllIterator or Vector::begin(); end() (lines 198-204)
hands out the chunk-size MatchesAllIterator, but in the vector branch
returns Vector::begin() rather than Vector::end(). -/

/-- The first-generation PosList state. -/
structure PosListV1 where
  vec : List RowID
  _matches_all_chunk : Option Chunk
  _chunk_id : ChunkID
  _references_single_chunk : Bool
deriving DecidableEq, Repr

namespace PosListV1

/-- A wrapper iterator position: either an index into the vector or a
matches-all offset. -/
def beginIndex (_p : PosListV1) : Nat := 0

/-- The vector-branch index wrapped by end(): the source constructs it
from Vector::begin(), i.e. index 0 (line 203). -/
def endIndexVectorBranch (_p : PosListV1) : Nat := 0

/-- Walking the wrapper range from begin() to end() and collecting every
dereferenced element.  In the matches-all branch the iterators delimit
offsets 0 to the chunk size; in the vector branch they delimit the index
interval from beginIndex to endIndexVectorBranch. -/
def iterationSeq (p : PosListV1) : List RowID :=
  match p._matches_all_chunk with
  | some ch => (List.range ch.size).map (fun off => ⟨p._chunk_id, off⟩)
  | none =>
    (List.range (endIndexVectorBranch p - beginIndex p)).map
      (fun i => p.vec.getD (beginIndex p + i) ⟨0, 0⟩)

/-- operator[] of the first generation is the plain vector access. -/
def get (p : PosListV1) (n : Nat) : Option RowID := p.vec.get? n

/-- size of the first generation is the plain vector size. -/
def size (p : PosListV1) : Nat := p.vec.length

end PosListV1

/-! ## Third-generation PosList (src/lib/storage/pos_list.hpp, lines 573-913)

The third generation keeps the matches-all sentinel inside the vector
class and materializes it into the vector whenever an element access,
iterator or mutation needs the vector, including from const accessors via
a const_cast. -/

/-- The third-generation PosList state. -/
structure PosList3 where
  vec : List RowID
  _matches_all_chunk : Option Chunk
  _matches_all_chunk_id : ChunkID
  _references_single_chunk : Bool
deriving DecidableEq, Repr

namespace PosList3

/-- The matches-all constructor (lines 610-613): stores the chunk and its
id and calls guarantee_single_chunk(); the inherited vector is empty. -/
def matchesAllCtor (ch : Chunk) (c : ChunkID) : PosList3 :=
  ⟨[], some ch, c, true⟩

/-- matches_complete_chunk (lines 641-643). -/
def matches_complete_chunk (p : PosList3) : Bool := p._matches_all_chunk.isSome

/-- size (lines 743-749): the chunk row count in the matches-all case,
the vector length otherwise. -/
def size (p : PosList3) : Nat :=
  match p._matches_all_chunk with
  | some ch => ch.size
  | none => p.vec.length

/-- empty is size() == 0 (lines 757-759). -/
def isEmpty (p : PosList3) : Bool := decide (p.size = 0)

/-- _materialize (lines 834-849): resize the vector to the chunk size,
overwrite every slot with the synthesized row id, and clear the sentinel. -/
def _materialize (p : PosList3) : PosList3 :=
  match p._matches_all_chunk with
  | some ch =>
    ⟨(List.range ch.size).map (fun off => ⟨p._matches_all_chunk_id, off⟩),
      none, INVALID_CHUNK_ID, p._references_single_chunk⟩
  | none => p

/-- _materialize_if_necessary (lines 851-855). -/
def _materialize_if_necessary (p : PosList3) : PosList3 :=
  if p.matches_complete_chunk then p._materialize else p

/-- The const operator[] (lines 672-676): it casts away const, calls
_materialize_if_necessary, then performs the unchecked vector access.
The result is the accessed element together with the state the object is
left in. -/
def opIndexConst (p : PosList3) (n : Nat) : Option RowID × PosList3 :=
  let q := p._materialize_if_necessary
  (q.vec.get? n, q)

/-- cbegin (lines 697-700) also casts away const and materializes; this
function returns the state the object is left in. -/
def cbeginState (p : PosList3) : PosList3 := p._materialize_if_necessary

/-- The move constructor PosList(PosList&&) (lines 600-604): the vector
contents move over and the guarantee flag is copied, but the sentinel
members are not mentioned in the initializer list, so they keep their
defaults (nullptr / INVALID_CHUNK_ID, lines 857-859). -/
def moveCtor (p : PosList3) : PosList3 :=
  ⟨p.vec, none, INVALID_CHUNK_ID, p._references_single_chunk⟩

/-- common_chunk_id (lines 646-656) in release semantics: the DebugAssert
on references_single_chunk() is compiled out, the Assert on emptiness is
kept, then the sentinel id (matches-all case) or the chunk id of element
0 is returned. -/
def common_chunk_id (p : PosList3) : Option ChunkID :=
  if p.size = 0 then none
  else
    match p._matches_all_chunk with
    | some _ => some p._matches_all_chunk_id
    | none => some ((p.vec.headD ⟨0, 0⟩).chunk_id)

/-- The element loop of matches_all_equal_to_materialized (lines 872-878):
expected starts at the given offset and is incremented after every
matching element; the first mismatch returns false. -/
def matchLoop (c : ChunkID) (offset : Nat) : List RowID → Bool
  | [] => true
  | r :: rest => if r = ⟨c, offset⟩ then matchLoop c (offset + 1) rest else false

/-- matches_all_equal_to_materialized (lines 862-881): a size mismatch
returns false; otherwise common_chunk_id() of the matches-all list is
taken (its Assert fails on an empty list, giving none) and the
materialized contents are compared element by element against the
synthesized sequence. -/
def matches_all_equal_to_materialized (mal : PosList3) (materialized_list : List RowID) :
    Option Bool :=
  if mal.size ≠ materialized_list.length then some false
  else
    match mal.common_chunk_id with
    | none => none
    | some c => some (matchLoop c 0 materialized_list)

/-- The shared_ptr comparison of the both-matches-all branch of
operator== (line 885): pointer equality of the two chunk handles. -/
def chunkPtrEq : Option Chunk → Option Chunk → Bool
  | some c1, some c2 => decide (c1.ptr = c2.ptr)
  | some _, none => false
  | none, some _ => false
  | none, none => true

/-- operator==(const PosList&, const PosList&) (lines 883-895): both
matches-all compares the chunk pointers; exactly one matches-all goes
through matches_all_equal_to_materialized against the raw vector of the
other side; otherwise the raw vectors are compared. -/
def opEq (a b : PosList3) : Option Bool :=
  if a.matches_complete_chunk && b.matches_complete_chunk then
    some (chunkPtrEq a._matches_all_chunk b._matches_all_chunk)
  else if a.matches_complete_chunk then
    matches_all_equal_to_materialized a b.vec
  else if b.matches_complete_chunk then
    matches_all_equal_to_materialized b a.vec
  else
    some (decide (a.vec = b.vec))

/-- The logical sequence denoted by a third-generation list: the
synthesized matches-all sequence or the vector contents. -/
def logicalSeq (p : PosList3) : List RowID :=
  match p._matches_all_chunk with
  | some ch => (List.range ch.size).map (fun off => ⟨p._matches_all_chunk_id, off⟩)
  | none => p.vec

end PosList3

/-! ## Helper lemmas -/

/-- The element loop of matches_all_equal_to_materialized accepts exactly
the synthesized sequence starting at the given offset. -/
theorem posList3_matchLoop_iff (c : ChunkID) (v : List RowID) (k : Nat) :
    PosList3.matchLoop c k v = true ↔
      v = (List.range v.length).map (fun i => RowID.mk c (k + i)) := by
  induction v generalizing k with
  | nil => simp [PosList3.matchLoop]
  | cons r rest ih =>
    have hfun : ((fun i => RowID.mk c (k + i)) ∘ (fun i => i + 1)) =
        fun i => RowID.mk c ((k + 1) + i) := by
      funext i
      have hi : k + (i + 1) = (k + 1) + i := by omega
      simp [Function.comp_apply, hi]
    have hmap : (List.range (r :: rest).length).map (fun i => RowID.mk c (k + i)) =
        RowID.mk c k :: (List.range rest.length).map (fun i => RowID.mk c ((k + 1) + i)) := by
      rw [List.length_cons, List.range_succ_eq_map, List.map_cons, List.map_map, hfun]
      simp
    rw [hmap]
    rw [show PosList3.matchLoop c k (r :: rest) =
        if r = RowID.mk c k then PosList3.matchLoop c (k + 1) rest else false from rfl]
    simp only [List.cons.injEq]
    by_cases hr : r = RowID.mk c k
    · rw [if_pos hr, ih (k + 1)]
      simp [hr]
    · rw [if_neg hr]
      simp [hr]

/-- matches_all_equal_to_materialized over a non-empty matches-all list
holds exactly for the logical sequence of that list. -/
theorem posList3_ma_eq_materialized_iff (ch : Chunk) (c : ChunkID) (v : List RowID)
    (h : 0 < ch.size) :
    PosList3.matches_all_equal_to_materialized (PosList3.matchesAllCtor ch c) v = some true ↔
      v = PosList3.logicalSeq (PosList3.matchesAllCtor ch c) := by
  have hsize : PosList3.size (PosList3.matchesAllCtor ch c) = ch.size := rfl
  have hcid : PosList3.common_chunk_id (PosList3.matchesAllCtor ch c) = some c := by
    unfold PosList3.common_chunk_id
    rw [hsize]
    simp [PosList3.matchesAllCtor, Nat.pos_iff_ne_zero.mp h]
  have hlog : PosList3.logicalSeq (PosList3.matchesAllCtor ch c) =
      (List.range ch.size).map (fun i => RowID.mk c i) := rfl
  unfold PosList3.matches_all_equal_to_materialized
  rw [hsize, hcid, hlog]
  by_cases hlen : ch.size = v.length
  · simp only [ne_eq, hlen, not_true_eq_false, if_false, Option.some_inj]
    rw [posList3_matchLoop_iff c v 0]
    simp
  · simp only [ne_eq, hlen, not_false_eq_true, if_true]
    constructor
    · intro hfalse
      exact absurd hfalse (by simp)
    · intro hv
      exfalso
      apply hlen
      rw [hv]
      simp

/-- When references_single_chunk in debug mode returns some true, the flag
is set and the exhaustive scan succeeded. -/
theorem posListM_ref_single_true (p : PosListM)
    (h : PosListM.references_single_chunk true p = some true) :
    p._references_single_chunk = true ∧ PosListM.scanSingleChunk p.vec = true := by
  unfold PosListM.references_single_chunk at h
  by_cases hf : p._references_single_chunk
  · by_cases hscan : PosListM.scanSingleChunk p.vec
    · exact ⟨hf, hscan⟩
    · simp [hf, hscan] at h
  · simp [hf] at h

/-- A successful scan means every element carries the chunk id of the
head. -/
theorem posListM_scan_all (v : List RowID) (h : PosListM.scanSingleChunk v = true) :
    ∀ r ∈ v, r.chunk_id = (v.headD ⟨0, 0⟩).chunk_id := by
  cases v with
  | nil => intro r hr; cases hr
  | cons r0 rest =>
    intro r hr
    rcases List.mem_cons.mp hr with h0 | hmem
    · subst h0; rfl
    · unfold PosListM.scanSingleChunk at h
      have := List.all_eq_true.mp h r hmem
      simpa using this

/-! ## Claim theorems -/

/-- C2 evaluation: a MatchesAllPosList over a one-row chunk with chunk id
0 denotes the same logical sequence as a materialized list holding the
single row id with chunk 0 and offset 0, yet the polymorphic
operator==(const AbstractPosList*) of MatchesAllPosList returns false on
it, because its body is a TODO stub. -/
theorem c2_polymorphic_eq_stub_returns_false :
    MatchesAllPosList.logicalSeq ⟨⟨0, 1⟩, 0⟩ = [⟨0, 0⟩] ∧
    MatchesAllPosList.opEqAbstract ⟨⟨0, 1⟩, 0⟩ [⟨0, 0⟩] = false := by
  decide

/-- C3 counterexample: a matches-all list over a chunk with 5 rows and
chunk id 2 has size 5, but get(7) returns the value with chunk 2 and
offset 7 in both debug and release builds instead of failing with an
out-of-range error. -/
theorem c3_get_out_of_range_returns_value :
    MatchesAllPosList.size ⟨⟨0, 5⟩, 2⟩ = 5 ∧
    MatchesAllPosList.get true ⟨⟨0, 5⟩, 2⟩ 7 = some ⟨2, 7⟩ ∧
    MatchesAllPosList.get false ⟨⟨0, 5⟩, 2⟩ 7 = some ⟨2, 7⟩ := by
  decide

/-- C3 amended: MatchesAllPosList::operator[] performs no bounds check at
all; for every index n, also n at or beyond size(), it returns the row id
synthesized from the stored chunk id and n, in both build modes, the only
guard being the DebugAssert that the stored chunk id is valid. -/
theorem c3_get_unchecked_amended (debug : Bool) (p : MatchesAllPosList) (n : Nat)
    (h : p._common_chunk_id ≠ INVALID_CHUNK_ID) :
    MatchesAllPosList.get debug p n = some ⟨p._common_chunk_id, n⟩ := by
  unfold MatchesAllPosList.get
  simp [h]

/-- C3 amended, witness at a concrete input. -/
theorem c3_get_unchecked_amended_witness :
    MatchesAllPosList.get true ⟨⟨0, 5⟩, 2⟩ 9 = some ⟨2, 9⟩ :=
  c3_get_unchecked_amended true ⟨⟨0, 5⟩, 2⟩ 9 (by decide)

/-- C4 counterexample: a SingleChunkPosList over chunk id 4 with an empty
iterator range is empty, yet common_chunk_id() returns 4 without any
precondition failure. -/
theorem c4_single_chunk_common_chunk_id_no_failure :
    SingleChunkPosList.isEmpty ⟨[], 4⟩ = true ∧
    SingleChunkPosList.common_chunk_id ⟨[], 4⟩ = some 4 ∧
    SingleChunkPosList.common_chunk_id ⟨[], 4⟩ ≠ none := by
  decide

/-- C4 amended: the materialized PosList fails common_chunk_id() on an
empty list in every build mode, and in debug builds also when the
single-chunk flag is unset; SingleChunkPosList::common_chunk_id performs
no check and returns the stored chunk id even for an empty range. -/
theorem c4_common_chunk_id_amended (debug : Bool) (p : PosListM) (q : SingleChunkPosList) :
    (p.vec = [] → PosListM.common_chunk_id debug p = none) ∧
    (debug = true → p._references_single_chunk = false →
      PosListM.common_chunk_id debug p = none) ∧
    SingleChunkPosList.common_chunk_id q = some q._chunk_id := by
  refine ⟨?_, ?_, rfl⟩
  · intro h
    unfold PosListM.common_chunk_id PosListM.references_single_chunk
    cases debug <;> simp [h, PosListM.scanSingleChunk]
  · intro hd hf
    subst hd
    unfold PosListM.common_chunk_id PosListM.references_single_chunk
    simp [hf]

/-- C4 amended, witness: the empty materialized PosList with the
guarantee flag set fails common_chunk_id in debug mode, and a non-empty
SingleChunkPosList returns its stored chunk id. -/
theorem c4_common_chunk_id_amended_witness :
    PosListM.common_chunk_id true ⟨[], true⟩ = none ∧
    SingleChunkPosList.common_chunk_id ⟨[10], 4⟩ = some 4 :=
  ⟨(c4_common_chunk_id_amended true ⟨[], true⟩ ⟨[10], 4⟩).1 rfl,
   (c4_common_chunk_id_amended true ⟨[], true⟩ ⟨[10], 4⟩).2.2⟩

/-- C5 evaluation: in the first-generation PosList, a non-empty
materialized list (one element, not matches-all) has size 1 and get(0)
returns that element, yet walking from begin() to end() yields the empty
sequence, because end() wraps Vector::begin() instead of Vector::end(). -/
theorem c5_iteration_wrapper_end_bug :
    PosListV1.iterationSeq ⟨[⟨0, 0⟩], none, 0, false⟩ = [] ∧
    PosListV1.size ⟨[⟨0, 0⟩], none, 0, false⟩ = 1 ∧
    PosListV1.get ⟨[⟨0, 0⟩], none, 0, false⟩ 0 = some ⟨0, 0⟩ := by
  decide

/-- C6: a matches-all position list over a chunk with k rows and a valid
chunk id c has size k, get(i) returns the row id with chunk c and offset
i, references_single_chunk() is true and common_chunk_id() is c; the
third-generation sentinel PosList likewise reports the chunk row count as
its size. -/
theorem c6_matches_all_contract (ch : Chunk) (c : ChunkID) (debug : Bool)
    (hc : c ≠ INVALID_CHUNK_ID) :
    MatchesAllPosList.size ⟨ch, c⟩ = ch.size ∧
    (∀ i : Nat, MatchesAllPosList.get debug ⟨ch, c⟩ i = some ⟨c, i⟩) ∧
    MatchesAllPosList.references_single_chunk ⟨ch, c⟩ = true ∧
    MatchesAllPosList.common_chunk_id debug ⟨ch, c⟩ = some c ∧
    PosList3.size (PosList3.matchesAllCtor ch c) = ch.size := by
  refine ⟨rfl, ?_, rfl, ?_, rfl⟩
  · intro i
    unfold MatchesAllPosList.get
    simp [hc]
  · unfold MatchesAllPosList.common_chunk_id
    simp [hc]

/-- C6 witness: scenario A with 5 rows and chunk id 2. -/
theorem c6_matches_all_contract_witness :
    MatchesAllPosList.size ⟨⟨0, 5⟩, 2⟩ = 5 ∧
    MatchesAllPosList.get true ⟨⟨0, 5⟩, 2⟩ 3 = some ⟨2, 3⟩ ∧
    MatchesAllPosList.common_chunk_id true ⟨⟨0, 5⟩, 2⟩ = some 2 := by
  have h := c6_matches_all_contract ⟨0, 5⟩ 2 true (by decide)
  exact ⟨h.1, h.2.1 3, h.2.2.2.1⟩

/-- C7 evaluation: the materialized PosList charges size times the RowID
size for every mode; SingleChunkPosList::memory_usage returns
sizeof_pointer, i.e. the 8-byte size of the this pointer, not the size of
the pointed-to struct; MatchesAllPosList charges its fixed struct size.
All of these are constants independent of size except the materialized
formula. -/
theorem c7_memory_usage_formulas (mode : MemoryUsageCalculationMode)
    (p : PosListM) (q : SingleChunkPosList) (r : MatchesAllPosList) :
    PosListM.memory_usage mode p = PosListM.size p * sizeof_RowID ∧
    SingleChunkPosList.memory_usage mode q = sizeof_pointer ∧
    sizeof_pointer = 8 ∧
    MatchesAllPosList.memory_usage mode r = MatchesAllPosList.sizeof_struct :=
  ⟨rfl, rfl, rfl, rfl⟩

/-- C8 evaluation: the third-generation sentinel PosList starts as a
matches-all list, but the const operator[] and cbegin materialize the
sentinel into the backing vector through a const_cast: the state after
the const access differs from the state before (the sentinel is cleared),
even though the logical sequence is unchanged. -/
theorem c8_const_accessor_materializes :
    PosList3.matches_complete_chunk (PosList3.matchesAllCtor ⟨0, 1⟩ 0) = true ∧
    (PosList3.opIndexConst (PosList3.matchesAllCtor ⟨0, 1⟩ 0) 0).2 ≠
      PosList3.matchesAllCtor ⟨0, 1⟩ 0 ∧
    PosList3.matches_complete_chunk
      (PosList3.cbeginState (PosList3.matchesAllCtor ⟨0, 1⟩ 0)) = false ∧
    PosList3.logicalSeq (PosList3.cbeginState (PosList3.matchesAllCtor ⟨0, 1⟩ 0)) =
      PosList3.logicalSeq (PosList3.matchesAllCtor ⟨0, 1⟩ 0) := by
  decide

/-- C10: the third-generation move constructor transfers the vector
contents and copies the single-chunk flag, but resets the matches-all
sentinel members to their defaults, so move-constructing from an
unmaterialized matches-all list (whose vector is empty by construction)
yields a list of size 0. -/
theorem c10_move_ctor_drops_sentinel (p : PosList3) (ch : Chunk) (c : ChunkID) :
    (PosList3.moveCtor p).vec = p.vec ∧
    (PosList3.moveCtor p)._references_single_chunk = p._references_single_chunk ∧
    (PosList3.moveCtor p)._matches_all_chunk = none ∧
    (PosList3.moveCtor p)._matches_all_chunk_id = INVALID_CHUNK_ID ∧
    PosList3.size (PosList3.moveCtor (PosList3.matchesAllCtor ch c)) = 0 :=
  ⟨rfl, rfl, rfl, rfl, rfl⟩

/-- C1 counterexample: two matches-all lists over distinct chunk objects
of equal row count 2 and the same chunk id 7 denote the same logical
sequence, yet operator== returns false, because the both-matches-all
branch compares chunk object identity, not the logical sequence. -/
theorem c1_eq_not_representation_independent :
    PosList3.logicalSeq (PosList3.matchesAllCtor ⟨0, 2⟩ 7) =
      PosList3.logicalSeq (PosList3.matchesAllCtor ⟨1, 2⟩ 7) ∧
    PosList3.opEq (PosList3.matchesAllCtor ⟨0, 2⟩ 7) (PosList3.matchesAllCtor ⟨1, 2⟩ 7) =
      some false := by
  decide

/-- C1 amended: for a non-empty matches-all list, equality against a
materialized list holds exactly when the materialized contents are the
logical sequence of the matches-all list; in particular the materialized
copy of all its elements compares equal to it, and a matches-all list
compares equal to a matches-all list over the same chunk object. -/
theorem c1_matches_all_equality_amended (ch : Chunk) (c : ChunkID) (B : PosList3)
    (hk : 0 < ch.size) (hB : B._matches_all_chunk = none) :
    (PosList3.opEq (PosList3.matchesAllCtor ch c) B = some true ↔
      PosList3.logicalSeq B = PosList3.logicalSeq (PosList3.matchesAllCtor ch c)) ∧
    PosList3.opEq (PosList3.matchesAllCtor ch c)
      ⟨PosList3.logicalSeq (PosList3.matchesAllCtor ch c), none, INVALID_CHUNK_ID, false⟩ =
      some true ∧
    PosList3.opEq (PosList3.matchesAllCtor ch c) (PosList3.matchesAllCtor ch c) = some true := by
  have hmcA : PosList3.matches_complete_chunk (PosList3.matchesAllCtor ch c) = true := rfl
  have hmcB : PosList3.matches_complete_chunk B = false := by
    unfold PosList3.matches_complete_chunk
    rw [hB]
    rfl
  refine ⟨?_, ?_, ?_⟩
  · unfold PosList3.opEq
    rw [hmcA, hmcB]
    simp only [Bool.true_and, Bool.false_eq_true, if_false, if_true]
    rw [posList3_ma_eq_materialized_iff ch c B.vec hk]
    unfold PosList3.logicalSeq
    rw [hB]
  · exact (posList3_ma_eq_materialized_iff ch c
      (PosList3.logicalSeq (PosList3.matchesAllCtor ch c)) hk).mpr rfl
  · unfold PosList3.opEq
    rw [hmcA]
    simp [PosList3.chunkPtrEq, PosList3.matchesAllCtor]

/-- C1 amended, witness: a matches-all list over a 3-row chunk with chunk
id 2 compares equal to the materialized copy of its elements. -/
theorem c1_matches_all_equality_amended_witness :
    PosList3.opEq (PosList3.matchesAllCtor ⟨0, 3⟩ 2)
      ⟨[⟨2, 0⟩, ⟨2, 1⟩, ⟨2, 2⟩], none, INVALID_CHUNK_ID, false⟩ = some true := by
  have h := c1_matches_all_equality_amended ⟨0, 3⟩ 2
    ⟨[⟨2, 0⟩, ⟨2, 1⟩, ⟨2, 2⟩], none, INVALID_CHUNK_ID, false⟩ (by decide) rfl
  exact h.1.mpr (by decide)

/-- C9: the single-chunk invariant.  For a matches-all list with a valid
chunk id, the chunk id of every synthesized element equals
common_chunk_id(); for a range-backed list, the chunk id of every
in-range element equals common_chunk_id(); for the materialized PosList,
whenever the debug-mode references_single_chunk() (which verifies the
advisory flag by an exhaustive scan) returns true, every element carries
the chunk id that common_chunk_id() returns. -/
theorem c9_single_chunk_invariant (debug : Bool) (m : MatchesAllPosList)
    (q : SingleChunkPosList) (p : PosListM) :
    (∀ i : Nat, m._common_chunk_id ≠ INVALID_CHUNK_ID →
      (MatchesAllPosList.get debug m i).map RowID.chunk_id =
        MatchesAllPosList.common_chunk_id debug m) ∧
    (∀ i : Nat, i < q.range.length →
      (SingleChunkPosList.get q i).map RowID.chunk_id =
        SingleChunkPosList.common_chunk_id q) ∧
    (PosListM.references_single_chunk true p = some true → p.vec ≠ [] →
      ∀ i : Nat, i < p.vec.length →
        (PosListM.get p i).map RowID.chunk_id = PosListM.common_chunk_id true p) := by
  refine ⟨?_, ?_, ?_⟩
  · intro i hc
    unfold MatchesAllPosList.get MatchesAllPosList.common_chunk_id
    simp [hc]
  · intro i hi
    unfold SingleChunkPosList.get SingleChunkPosList.common_chunk_id
    rw [List.get?_eq_get hi]
    simp
  · intro hs hne i hi
    obtain ⟨hf, hscan⟩ := posListM_ref_single_true p hs
    have hcommon : PosListM.common_chunk_id true p =
        some ((p.vec.headD ⟨0, 0⟩).chunk_id) := by
      unfold PosListM.common_chunk_id
      rw [hs]
      simp [hne]
    have hmem : p.vec.get ⟨i, hi⟩ ∈ p.vec := List.get_mem p.vec i hi
    unfold PosListM.get
    rw [List.get?_eq_get hi, hcommon]
    simpa using posListM_scan_all p.vec hscan _ hmem

/-- C9 witness: all three conjuncts at concrete inputs, including the
materialized list with the flag set and a passing scan. -/
theorem c9_single_chunk_invariant_witness :
    (MatchesAllPosList.get true ⟨⟨0, 5⟩, 2⟩ 3).map RowID.chunk_id =
      MatchesAllPosList.common_chunk_id true ⟨⟨0, 5⟩, 2⟩ ∧
    (SingleChunkPosList.get ⟨[10, 11], 4⟩ 1).map RowID.chunk_id =
      SingleChunkPosList.common_chunk_id ⟨[10, 11], 4⟩ ∧
    (PosListM.get ⟨[⟨0, 0⟩, ⟨0, 7⟩], true⟩ 1).map RowID.chunk_id =
      PosListM.common_chunk_id true ⟨[⟨0, 0⟩, ⟨0, 7⟩], true⟩ := by
  have h := c9_single_chunk_invariant true ⟨⟨0, 5⟩, 2⟩ ⟨[10, 11], 4⟩ ⟨[⟨0, 0⟩, ⟨0, 7⟩], true⟩
  exact ⟨h.1 3 (by decide), h.2.1 1 (by decide), h.2.2 (by decide) (by decide) 1 (by decide)⟩

end Hyrise
